import Mathlib

/-
  Shallow embedding of the dense-layer graph builder of
  src/src/layers/layers.cpp (namespace ushionn::nn) together with the
  specified behaviour of its external collaborators (graph node registry,
  tensor storage class, seeded pseudo-random stream), and proofs about the
  builder's forward pass, backward pass, accessors and initializer.
-/

namespace UshioNN

/-- Element data types, the closed set used by the layer code
(`fe::DataType_t`); `NOT_SET` is the unset default of a freshly created
graph tensor node, `HALF` stands in for the further members of the set. -/
inductive DataType where
  | FLOAT
  | DOUBLE
  | INT32
  | HALF
  | NOT_SET
deriving DecidableEq, Repr

/-- Pointwise operation modes used by the layer (`fe::PointwiseMode_t`). -/
inductive PointwiseMode where
  | ADD
deriving DecidableEq, Repr

/-- Reduction operation modes used by the layer (`fe::ReductionMode_t`). -/
inductive ReductionMode where
  | ADD
deriving DecidableEq, Repr

/-- Graph tensor node attributes (`fe::graph::Tensor_attributes`): symbolic
name, shape, element data type and the virtuality flag. -/
structure TensorAttr where
  name : String
  dim : List Nat
  data_type : DataType
  is_virtual : Bool
deriving DecidableEq, Repr

instance : Inhabited TensorAttr := ⟨⟨"", [], .NOT_SET, false⟩⟩

/-- Kind of an operation node appended to the graph. -/
inductive OpKind where
  | matmul
  | pointwise (mode : PointwiseMode)
  | reduction (mode : ReductionMode)
deriving DecidableEq, Repr

/-- One operation node recorded by the graph: its kind, the compute data
type carried by its attributes, the uids of its input tensor nodes and the
uid of its output tensor node. -/
structure OpNode where
  kind : OpKind
  compute_data_type : DataType
  inputs : List Nat
  output : Nat
deriving DecidableEq, Repr

/-- Modelled from the spec: the external Graph Node Registry
(`fe::graph::Graph`, consumed but not implemented by this repository).
Tensor nodes are addressed by uid (standing for the identity of the C++
shared pointers); `nodes` maps every uid to its current attributes,
`nextUid` is the next fresh uid, `ops` is the append-only operation list. -/
structure Graph where
  nodes : Nat → TensorAttr
  nextUid : Nat
  ops : List OpNode

/-- In-place mutation of the tensor node behind a uid, as performed through
a live `shared_ptr Tensor_attributes` handle. -/
def Graph.modifyNode (g : Graph) (u : Nat) (f : TensorAttr → TensorAttr) : Graph :=
  { g with nodes := fun v => if v = u then f (g.nodes v) else g.nodes v }

/-- The chained setter `Tensor_attributes::set_name`. -/
def Graph.set_name (g : Graph) (u : Nat) (s : String) : Graph :=
  g.modifyNode u (fun t => { t with name := s })

/-- The chained setter `Tensor_attributes::set_dim`. -/
def Graph.set_dim (g : Graph) (u : Nat) (d : List Nat) : Graph :=
  g.modifyNode u (fun t => { t with dim := d })

/-- The chained setter `Tensor_attributes::set_is_virtual`. -/
def Graph.set_is_virtual (g : Graph) (u : Nat) (b : Bool) : Graph :=
  g.modifyNode u (fun t => { t with is_virtual := b })

/-- The chained setter `Tensor_attributes::set_data_type`. -/
def Graph.set_data_type (g : Graph) (u : Nat) (dt : DataType) : Graph :=
  g.modifyNode u (fun t => { t with data_type := dt })

/-- Registration of a fresh tensor node: the registry hands out a new uid
and stores the given attributes under it. -/
def Graph.newNode (g : Graph) (t : TensorAttr) : Graph × Nat :=
  ({ nodes := fun v => if v = g.nextUid then t else g.nodes v
     nextUid := g.nextUid + 1
     ops := g.ops }, g.nextUid)

/-- Modelled from the spec: the output-shape rule of the external engine's
matrix multiply — for operands shaped `batch ++ [m, k]` and `… ++ [k, n]`
the output descriptor is shaped `batch ++ [m, n]`; on operands to which the
rule does not apply no shape is derived. -/
def matmulShape (da db : List Nat) : Option (List Nat) :=
  match da.reverse, db.reverse with
  | k1 :: _ :: _, n :: k2 :: _ =>
      if k1 = k2 then some (da.dropLast ++ [n]) else none
  | _, _ => none

/-- The registry call `graph->matmul(a, b, attrs)`: appends a matmul
operation and returns a fresh output node (shape by `matmulShape` where it
applies, otherwise left for the external compile step). -/
def Graph.matmul (g : Graph) (a b : Nat) (compute : DataType) : Graph × Nat :=
  let dim := (matmulShape (g.nodes a).dim (g.nodes b).dim).getD []
  let p := g.newNode ⟨"", dim, .NOT_SET, false⟩
  ({ p.1 with ops := p.1.ops ++ [⟨.matmul, compute, [a, b], p.2⟩] }, p.2)

/-- The registry call `graph->pointwise(a, b, attrs)`: appends an
elementwise operation; the output descriptor takes the first operand's
shape (the full-rank operand in the layer's use). -/
def Graph.pointwise (g : Graph) (a b : Nat) (compute : DataType)
    (mode : PointwiseMode) : Graph × Nat :=
  let p := g.newNode ⟨"", (g.nodes a).dim, .NOT_SET, false⟩
  ({ p.1 with ops := p.1.ops ++ [⟨.pointwise mode, compute, [a, b], p.2⟩] }, p.2)

/-- The registry call `graph->reduction(a, attrs)`: appends a reduction
operation; the reduced output shape is resolved only by the external
compile step, so it is left empty here. -/
def Graph.reduction (g : Graph) (a : Nat) (compute : DataType)
    (mode : ReductionMode) : Graph × Nat :=
  let p := g.newNode ⟨"", [], .NOT_SET, false⟩
  ({ p.1 with ops := p.1.ops ++ [⟨.reduction mode, compute, [a], p.2⟩] }, p.2)

/-- One host-buffer element slot; a written value remembers the width of
the store that produced it, so bit-identity of buffers is meaningful. -/
inductive Scalar where
  | uninit
  | f32 (bits : Nat)
  | f64 (bits : Nat)
deriving DecidableEq, Repr

/-- Modelled from the spec: the repository's `Tensor` class (declared
outside `src/`): a named, typed, shaped quantity with a storage-location
tag and, when host-resident, a linear host buffer. -/
structure Tensor where
  name : String
  data_type : DataType
  dim : List Nat
  on_host : Bool
  host_data : List Scalar
deriving DecidableEq, Repr

/-- `Tensor::get_data_type`. -/
def Tensor.get_data_type (t : Tensor) : DataType := t.data_type

/-- Modelled from the spec: `Tensor::get_num_elements` — the element count
described by the shape. -/
def Tensor.get_num_elements (t : Tensor) : Nat := t.dim.prod

/-- `Tensor::is_on_host`. -/
def Tensor.is_on_host (t : Tensor) : Bool := t.on_host

/-- Modelled from the spec: `Tensor::create_graph_tensor_attributes`
registers a non-virtual graph tensor node carrying the tensor's name,
shape and data type and returns a reference to it; the tensor itself is
only borrowed and not changed. -/
def Tensor.create_graph_tensor_attributes (t : Tensor) (g : Graph) :
    Graph × Nat :=
  g.newNode ⟨t.name, t.dim, t.data_type, false⟩

/-- The in-place `std::swap(shape[size - 1], shape[size - 2])` performed by
`add_backward_to_graph`; when the shape has fewer than two entries the C++
indexing is out of bounds (`size_t` underflow), embedded as `none`. -/
def swapLastTwo (shape : List Nat) : Option (List Nat) :=
  match shape.reverse with
  | b :: a :: r => some ((a :: b :: r).reverse)
  | _ => none

/-- The dense (affine) layer's state: its name, configured data type, the
two learnable tensors and their gradient accumulators, all exclusively
owned by the layer. -/
structure DenseLayer where
  name_ : String
  data_type_ : DataType
  weights_ : Tensor
  bias_ : Tensor
  weights_grad_ : Tensor
  bias_grad_ : Tensor
deriving DecidableEq, Repr

/-- `DenseLayer::add_forward_to_graph`: emits the matmul of the input with
a freshly registered weight node, then the pointwise ADD of that result
with a freshly registered bias node, marking and naming both outputs; the
layer state is returned unchanged alongside the graph and the output uid. -/
def DenseLayer.add_forward_to_graph (l : DenseLayer) (g : Graph)
    (input_tensor_graph_ref : Nat) : DenseLayer × Graph × Nat :=
  let matmul_compute := l.weights_.get_data_type
  let add_compute := l.bias_.get_data_type
  let p1 := l.weights_.create_graph_tensor_attributes g
  let weights_tensor_attributes := p1.2
  let p2 := l.bias_.create_graph_tensor_attributes p1.1
  let bias_tensor_attributes := p2.2
  let p3 := p2.1.matmul input_tensor_graph_ref weights_tensor_attributes matmul_compute
  let weights_output := p3.2
  let g3 := ((p3.1.set_is_virtual weights_output true).set_name weights_output
      (l.name_ ++ "_weights_matmul_out")).set_data_type weights_output l.data_type_
  let p4 := g3.pointwise weights_output bias_tensor_attributes add_compute .ADD
  let output := p4.2
  let g4 := ((p4.1.set_is_virtual output true).set_name output
      (l.name_ ++ "_bias_add_out")).set_data_type output l.data_type_
  (l, g4, output)

/-- `DenseLayer::add_backward_to_graph`: registers a node from
`weights_grad_` (whose handle the C++ immediately overwrites), transposes
the forward input's shape in place, emits the weight-gradient matmul, then
registers a node from `bias_grad_` (handle again overwritten), emits the
bias-gradient reduction, registers a node from `weights_`, transposes its
shape in place and emits the input-gradient matmul, which is returned.
Each of the two last-two-dimension swaps is out of bounds (`none`) on a
shape of length below two. -/
def DenseLayer.add_backward_to_graph (l : DenseLayer) (g : Graph)
    (output_grad_graph_ref fwd_input_tensor_ref fwd_output_tensor_ref : Nat) :
    Option (DenseLayer × Graph × Nat) :=
  let matmul_compute := l.weights_grad_.get_data_type
  let q1 := l.weights_grad_.create_graph_tensor_attributes g
  match swapLastTwo (q1.1.nodes fwd_input_tensor_ref).dim with
  | none => none
  | some fwd_input_shape =>
    let g1 := ((q1.1.set_dim fwd_input_tensor_ref fwd_input_shape).set_is_virtual
        fwd_input_tensor_ref true).set_data_type fwd_input_tensor_ref l.data_type_
    let q2 := g1.matmul fwd_input_tensor_ref output_grad_graph_ref matmul_compute
    let weights_grad_out := q2.2
    let g2 := ((q2.1.set_is_virtual weights_grad_out true).set_name weights_grad_out
        (l.name_ ++ "_weights_matmul_out_bwd")).set_data_type weights_grad_out l.data_type_
    let reduction_compute := l.bias_grad_.get_data_type
    let q3 := l.bias_grad_.create_graph_tensor_attributes g2
    let q4 := q3.1.reduction output_grad_graph_ref reduction_compute .ADD
    let bias_grad_out := q4.2
    let g4 := ((q4.1.set_is_virtual bias_grad_out true).set_name bias_grad_out
        (l.name_ ++ "_bias_add_out_bwd")).set_data_type bias_grad_out l.data_type_
    let q5 := l.weights_.create_graph_tensor_attributes g4
    let weights_tensor_attributes := q5.2
    match swapLastTwo (q5.1.nodes weights_tensor_attributes).dim with
    | none => none
    | some weights_tensor_shape =>
      let g5 := ((q5.1.set_dim weights_tensor_attributes weights_tensor_shape).set_is_virtual
          weights_tensor_attributes true).set_data_type weights_tensor_attributes l.data_type_
      let q6 := g5.matmul output_grad_graph_ref weights_tensor_attributes matmul_compute
      let output := q6.2
      let g6 := ((q6.1.set_is_virtual output true).set_name output
          (l.name_ ++ "_output_bwd")).set_data_type output l.data_type_
      some (l, g6, output)

/-- A borrowed reference to one of the four layer-owned tensors, standing
for the raw member pointers the accessors hand out. -/
inductive ParamRef where
  | weightsRef
  | biasRef
  | weightsGradRef
  | biasGradRef
deriving DecidableEq, Repr

/-- `DenseLayer::get_parameters`: the weight and bias references in that
fixed order; the layer state is returned unchanged. -/
def DenseLayer.get_parameters (l : DenseLayer) : List ParamRef × DenseLayer :=
  ([.weightsRef, .biasRef], l)

/-- `DenseLayer::get_gradients`: the weight-gradient and bias-gradient
references in that fixed order; the layer state is returned unchanged. -/
def DenseLayer.get_gradients (l : DenseLayer) : List ParamRef × DenseLayer :=
  ([.weightsGradRef, .biasGradRef], l)

/-- Dereferencing a borrowed member reference on a layer state. -/
def DenseLayer.deref (l : DenseLayer) : ParamRef → Tensor
  | .weightsRef => l.weights_
  | .biasRef => l.bias_
  | .weightsGradRef => l.weights_grad_
  | .biasGradRef => l.bias_grad_

/-- Modelled from the spec: the seeded pseudo-random stream
(`std::mt19937` driving `std::normal_distribution`). The spec pins only
determinism — same seed, same sequence within one implementation — not the
numeric algorithm, so the stream is abstracted as a concrete deterministic
function of the seed and the draw index. -/
def normalDraw (seed i : Nat) : Nat :=
  (seed * 6364136223846793005 + i * 1442695040888963407 + 1) % 2 ^ 64

/-- The initializer's write loop
`for (int i = 0; i < num_elem; ++i) ptr[i] = dist(gen);`:
writes the draws in linear storage order at indices `0 … n - 1`. -/
def writeDraws (buf : List Scalar) (f : Nat → Scalar) (n : Nat) : List Scalar :=
  (List.range n).foldl (fun b i => b.set i (f i)) buf

/-- Outcome of `initialize_parameters_norm`: normal return, the
`USHIONN_ASSERT` precondition failure, or the `USHIONN_LOG_FATAL`
unsupported-configuration abort; the failing constructors carry the layer
state as it stands at the abort. -/
inductive InitResult where
  | ok (layer : DenseLayer)
  | assertFail (msg : String) (layer : DenseLayer)
  | fatal (msg : String) (layer : DenseLayer)
deriving DecidableEq, Repr

/-- Whether an initializer outcome is the unsupported-configuration abort. -/
def InitResult.isFatal : InitResult → Bool
  | .fatal _ _ => true
  | _ => false

/-- The weight host buffer of the layer state carried by an initializer
outcome. -/
def InitResult.hostData : InitResult → List Scalar
  | .ok l => l.weights_.host_data
  | .assertFail _ l => l.weights_.host_data
  | .fatal _ l => l.weights_.host_data

/-- `DenseLayer::initialize_parameters_norm`: asserts host residency of the
weight tensor, then dispatches on the layer's configured `data_type_`
(not on the weight tensor's own storage type): float and double draw and
store `num_elem` values in linear order, `INT32` is fatal, and any other
type falls through the `if`/`else if` chain and returns with no write. -/
def DenseLayer.initialize_parameters_norm (l : DenseLayer) (seed : Nat) :
    InitResult :=
  if l.weights_.is_on_host = false then
    .assertFail ("The weight to initialize must be on the host") l
  else
    let num_elem := l.weights_.get_num_elements
    if l.data_type_ = .FLOAT then
      .ok { l with weights_ := { l.weights_ with
        host_data := writeDraws l.weights_.host_data
          (fun i => .f32 (normalDraw seed i)) num_elem } }
    else if l.data_type_ = .DOUBLE then
      .ok { l with weights_ := { l.weights_ with
        host_data := writeDraws l.weights_.host_data
          (fun i => .f64 (normalDraw seed i)) num_elem } }
    else if l.data_type_ = .INT32 then
      .fatal ("This library does not yet support integer weight initialization") l
    else
      .ok l

/-- A concrete dense layer matching the spec's worked example: 4 input
features, 3 output features, float compute. -/
def sampleLayer : DenseLayer :=
  { name_ := "dense"
    data_type_ := .FLOAT
    weights_ := ⟨"w", .FLOAT, [4, 3], true, List.replicate 12 .uninit⟩
    bias_ := ⟨"b", .FLOAT, [1, 3], true, List.replicate 3 .uninit⟩
    weights_grad_ := ⟨"wg", .FLOAT, [4, 3], true, List.replicate 12 .uninit⟩
    bias_grad_ := ⟨"bg", .FLOAT, [1, 3], true, List.replicate 3 .uninit⟩ }

/-- The sample layer with its weight tensor moved off the host. -/
def deviceLayer : DenseLayer :=
  { sampleLayer with weights_ := { sampleLayer.weights_ with on_host := false } }

/-- The sample layer reconfigured to 32-bit integer compute. -/
def int32Layer : DenseLayer :=
  { sampleLayer with data_type_ := .INT32 }

/-- The sample layer reconfigured to a data type outside the initializer's
dispatch set. -/
def halfLayer : DenseLayer :=
  { sampleLayer with data_type_ := .HALF }

/-- A layer whose weight tensor is stored as 32-bit integers while the
layer's configured compute data type is float — the mixed-precision
configuration the spec explicitly allows for the forward pass. -/
def intWeightLayer : DenseLayer :=
  { name_ := "d"
    data_type_ := .FLOAT
    weights_ := ⟨"w", .INT32, [2, 2], true, List.replicate 4 .uninit⟩
    bias_ := ⟨"b", .INT32, [1, 2], true, List.replicate 2 .uninit⟩
    weights_grad_ := ⟨"wg", .INT32, [2, 2], true, List.replicate 4 .uninit⟩
    bias_grad_ := ⟨"bg", .INT32, [1, 2], true, List.replicate 2 .uninit⟩ }

/-- The layer state carried by an optional backward-builder result. -/
def resLayer : Option (DenseLayer × Graph × Nat) → Option DenseLayer
  | some (l, _, _) => some l
  | none => none

/-- The returned output uid of an optional backward-builder result. -/
def resOut : Option (DenseLayer × Graph × Nat) → Option Nat
  | some (_, _, o) => some o
  | none => none

/-- The operation list of the graph inside an optional builder result. -/
def resOps : Option (DenseLayer × Graph × Nat) → List OpNode
  | some (_, g, _) => g.ops
  | none => []

/-- A tensor node of the graph inside an optional builder result. -/
def resNode : Option (DenseLayer × Graph × Nat) → Nat → TensorAttr
  | some (_, g, _), u => g.nodes u
  | none, _ => default

/-- A canonical graph holding exactly the two nodes a backward call
consumes: the cached forward input at uid 0 and the incoming output
gradient at uid 1. -/
def mkGraph2 (dimX dimG : List Nat) : Graph :=
  { nodes := fun u =>
      if u = 0 then ⟨"fwd_input", dimX, .FLOAT, false⟩
      else if u = 1 then ⟨"output_grad", dimG, .FLOAT, false⟩
      else default
    nextUid := 2
    ops := [] }

/-- The canonical graph for the spec's worked example: forward input of
shape `[8, 4]`, output gradient of shape `[8, 3]`. -/
def g0 : Graph := mkGraph2 [8, 4] [8, 3]

lemma writeDraws_zero (buf : List Scalar) (f : Nat → Scalar) :
    writeDraws buf f 0 = buf := rfl

lemma writeDraws_succ (buf : List Scalar) (f : Nat → Scalar) (n : Nat) :
    writeDraws buf f (n + 1) = (writeDraws buf f n).set n (f n) := by
  simp [writeDraws, List.range_succ]

lemma writeDraws_length (buf : List Scalar) (f : Nat → Scalar) (n : Nat) :
    (writeDraws buf f n).length = buf.length := by
  induction n with
  | zero => rfl
  | succ n ih => simp [writeDraws_succ, ih]

lemma writeDraws_getElem? (buf : List Scalar) (f : Nat → Scalar) (n j : Nat) :
    (writeDraws buf f n)[j]? =
      if j < n ∧ j < buf.length then some (f j) else buf[j]? := by
  induction n with
  | zero => simp [writeDraws_zero]
  | succ n ih =>
    rw [writeDraws_succ, List.getElem?_set, writeDraws_length, ih]
    rcases Nat.lt_trichotomy j n with hj | hj | hj
    · have e1 : ¬ n = j := by omega
      have e2 : j < n + 1 := by omega
      simp [e1, hj, e2]
    · subst hj
      by_cases hl : j < buf.length
      · simp [hl]
      · simp [hl, List.getElem?_eq_none (by omega : buf.length ≤ j)]
    · have e1 : ¬ n = j := by omega
      have e2 : ¬ j < n := by omega
      have e3 : ¬ j < n + 1 := by omega
      simp [e1, e2, e3]

lemma writeDraws_eq_map (buf : List Scalar) (f : Nat → Scalar) (n : Nat)
    (h : buf.length = n) : writeDraws buf f n = (List.range n).map f := by
  apply List.ext_getElem?
  intro j
  rw [writeDraws_getElem?, List.getElem?_map]
  by_cases hj : j < n
  · simp [hj, h, List.getElem?_range hj]
  · have h1 : buf[j]? = none := List.getElem?_eq_none (by omega)
    have h2 : (List.range n)[j]? = none :=
      List.getElem?_eq_none (by simpa using by omega)
    simp [hj, h1, h2]

/-- C8: `get_parameters()` returns the weight and bias references in that
fixed order and `get_gradients()` the weight-gradient and bias-gradient
references in the same fixed order; both leave the layer state untouched,
so repeated calls return the same two member references by identity, and
the references denote the layer's own tensors. -/
theorem accessors_fixed_order_pure (l : DenseLayer) :
    l.get_parameters = ([.weightsRef, .biasRef], l) ∧
    l.get_gradients = ([.weightsGradRef, .biasGradRef], l) ∧
    (l.get_parameters.2).get_parameters = l.get_parameters ∧
    (l.get_gradients.2).get_gradients = l.get_gradients ∧
    l.deref .weightsRef = l.weights_ ∧
    l.deref .biasRef = l.bias_ ∧
    l.deref .weightsGradRef = l.weights_grad_ ∧
    l.deref .biasGradRef = l.bias_grad_ :=
  ⟨rfl, rfl, rfl, rfl, rfl, rfl, rfl, rfl⟩

/-- C10: `initialize_parameters_norm` dispatches on the layer's configured
data type — the weight tensor's own storage type is unconstrained here —
and for any configured type outside float, double and 32-bit integer the
call returns normally with the layer, and hence the weight buffer,
completely unchanged. -/
theorem initialize_other_dtype_noop (l : DenseLayer) (seed : Nat)
    (hhost : l.weights_.is_on_host = true)
    (h1 : l.data_type_ ≠ .FLOAT) (h2 : l.data_type_ ≠ .DOUBLE)
    (h3 : l.data_type_ ≠ .INT32) :
    l.initialize_parameters_norm seed = .ok l := by
  simp [DenseLayer.initialize_parameters_norm, hhost, h1, h2, h3]

theorem initialize_other_dtype_noop_witness :
    halfLayer.initialize_parameters_norm 7 = .ok halfLayer :=
  initialize_other_dtype_noop halfLayer 7 (by decide) (by decide) (by decide)
    (by decide)

/-- C5 (amended): a call while the weight tensor is not host-resident
aborts with the precondition failure before any mutation, and a call on a
layer whose configured data type is 32-bit integer takes the
unsupported-configuration fatal path with no element of the weight buffer
written; both aborts leave the layer state exactly as it was. The dispatch
is on the layer's configured data type, not the weight tensor's own
storage type. -/
theorem initialize_failure_paths (l : DenseLayer) (seed : Nat) :
    (l.weights_.is_on_host = false →
      l.initialize_parameters_norm seed =
        .assertFail ("The weight to initialize must be on the host") l) ∧
    (l.weights_.is_on_host = true → l.data_type_ = .INT32 →
      l.initialize_parameters_norm seed =
        .fatal ("This library does not yet support integer weight initialization") l) := by
  constructor
  · intro h
    simp [DenseLayer.initialize_parameters_norm, h]
  · intro h1 h2
    simp [DenseLayer.initialize_parameters_norm, h1, h2]

theorem initialize_failure_paths_witness :
    deviceLayer.initialize_parameters_norm 7 =
      .assertFail ("The weight to initialize must be on the host") deviceLayer ∧
    int32Layer.initialize_parameters_norm 7 =
      .fatal ("This library does not yet support integer weight initialization")
        int32Layer :=
  ⟨(initialize_failure_paths deviceLayer 7).1 (by decide),
   (initialize_failure_paths int32Layer 7).2 (by decide) (by decide)⟩

/-- C5 counterexample: on a host-resident weight tensor whose own storage
type is 32-bit integer but whose layer is configured for float compute,
the call does not take the fatal path and does write the weight buffer —
the claim's dispatch-on-the-weight-tensor's-type reading is false. -/
theorem init_int32_weight_not_fatal :
    intWeightLayer.weights_.get_data_type = .INT32 ∧
    intWeightLayer.weights_.is_on_host = true ∧
    (intWeightLayer.initialize_parameters_norm 0).isFatal = false ∧
    (intWeightLayer.initialize_parameters_norm 0).hostData ≠
      intWeightLayer.weights_.host_data := by
  decide

/-- C7: with the same seed, two runs on identically shaped, identically
fresh host-resident weight buffers of the same configured float or double
type produce bit-identical buffers; a float (resp. double) run writes
exactly `num_elements` draws of the seeded stream, in linear storage order
at indices `0 … num_elements - 1`, and touches nothing else — the result
buffer is exactly the draw sequence. -/
theorem initialize_deterministic_linear (l1 l2 : DenseLayer) (seed : Nat)
    (hdt : l1.data_type_ = l2.data_type_)
    (h1 : l1.weights_.is_on_host = true)
    (h2 : l2.weights_.is_on_host = true)
    (hdim : l1.weights_.dim = l2.weights_.dim)
    (hbuf : l1.weights_.host_data = l2.weights_.host_data)
    (hlen : l1.weights_.host_data.length = l1.weights_.get_num_elements) :
    (l1.initialize_parameters_norm seed).hostData =
      (l2.initialize_parameters_norm seed).hostData ∧
    (l1.data_type_ = .FLOAT →
      (l1.initialize_parameters_norm seed).hostData =
        (List.range l1.weights_.get_num_elements).map
          (fun i => Scalar.f32 (normalDraw seed i))) ∧
    (l1.data_type_ = .DOUBLE →
      (l1.initialize_parameters_norm seed).hostData =
        (List.range l1.weights_.get_num_elements).map
          (fun i => Scalar.f64 (normalDraw seed i))) := by
  have hn : l1.weights_.get_num_elements = l2.weights_.get_num_elements := by
    simp [Tensor.get_num_elements, hdim]
  have hlen2 : l2.weights_.host_data.length = l2.weights_.get_num_elements := by
    rw [← hbuf, ← hn]; exact hlen
  refine ⟨?_, ?_, ?_⟩
  · have e2 : l2.data_type_ = l1.data_type_ := hdt.symm
    cases h : l1.data_type_ <;>
      simp [DenseLayer.initialize_parameters_norm, h, e2, h1, h2,
        InitResult.hostData, hbuf, hn]
  · intro h
    simp [DenseLayer.initialize_parameters_norm, h, h1, InitResult.hostData,
      writeDraws_eq_map _ _ _ hlen]
  · intro h
    simp [DenseLayer.initialize_parameters_norm, h, h1, InitResult.hostData,
      writeDraws_eq_map _ _ _ hlen]

theorem initialize_deterministic_linear_witness :
    (sampleLayer.initialize_parameters_norm 5).hostData =
      (sampleLayer.initialize_parameters_norm 5).hostData ∧
    (sampleLayer.data_type_ = .FLOAT →
      (sampleLayer.initialize_parameters_norm 5).hostData =
        (List.range sampleLayer.weights_.get_num_elements).map
          (fun i => Scalar.f32 (normalDraw 5 i))) ∧
    (sampleLayer.data_type_ = .DOUBLE →
      (sampleLayer.initialize_parameters_norm 5).hostData =
        (List.range sampleLayer.weights_.get_num_elements).map
          (fun i => Scalar.f64 (normalDraw 5 i))) :=
  initialize_deterministic_linear sampleLayer sampleLayer 5 rfl (by decide)
    (by decide) rfl rfl (by decide)

/-- C4: `add_forward_to_graph` emits exactly two operations in order — a
matmul consuming `input_ref` and the freshly registered weight node, then
a pointwise ADD consuming the matmul's output and the freshly registered
bias node — marks both outputs virtual, names them from the layer name
with the `_weights_matmul_out` and `_bias_add_out` suffixes, forces both
outputs' element type to the layer's configured data type, returns the
add's output, and leaves the layer (hence every parameter tensor)
unchanged. -/
theorem forward_emits_two_ops (l : DenseLayer) (g : Graph) (input_ref : Nat) :
    (l.add_forward_to_graph g input_ref).1 = l ∧
    (l.add_forward_to_graph g input_ref).2.2 = g.nextUid + 3 ∧
    ((l.add_forward_to_graph g input_ref).2.1).ops =
      g.ops ++
        [⟨.matmul, l.weights_.get_data_type, [input_ref, g.nextUid], g.nextUid + 2⟩,
         ⟨.pointwise .ADD, l.bias_.get_data_type, [g.nextUid + 2, g.nextUid + 1],
           g.nextUid + 3⟩] ∧
    ((l.add_forward_to_graph g input_ref).2.1).nodes g.nextUid =
      ⟨l.weights_.name, l.weights_.dim, l.weights_.data_type, false⟩ ∧
    ((l.add_forward_to_graph g input_ref).2.1).nodes (g.nextUid + 1) =
      ⟨l.bias_.name, l.bias_.dim, l.bias_.data_type, false⟩ ∧
    (((l.add_forward_to_graph g input_ref).2.1).nodes (g.nextUid + 2)).name =
      l.name_ ++ "_weights_matmul_out" ∧
    (((l.add_forward_to_graph g input_ref).2.1).nodes (g.nextUid + 2)).is_virtual =
      true ∧
    (((l.add_forward_to_graph g input_ref).2.1).nodes (g.nextUid + 2)).data_type =
      l.data_type_ ∧
    (((l.add_forward_to_graph g input_ref).2.1).nodes (g.nextUid + 3)).name =
      l.name_ ++ "_bias_add_out" ∧
    (((l.add_forward_to_graph g input_ref).2.1).nodes (g.nextUid + 3)).is_virtual =
      true ∧
    (((l.add_forward_to_graph g input_ref).2.1).nodes (g.nextUid + 3)).data_type =
      l.data_type_ := by
  refine ⟨rfl, rfl, ?_, ?_, ?_, ?_, ?_, ?_, ?_, ?_, ?_⟩ <;>
    simp +arith [DenseLayer.add_forward_to_graph,
      Tensor.create_graph_tensor_attributes, Graph.newNode, Graph.matmul,
      Graph.pointwise, Graph.set_name, Graph.set_is_virtual,
      Graph.set_data_type, Graph.modifyNode, Tensor.get_data_type]

lemma swapLastTwo_append (l : List Nat) (a b : Nat) :
    swapLastTwo (l ++ [a, b]) = some (l ++ [b, a]) := by
  simp [swapLastTwo, List.reverse_append]

lemma swapLastTwo_pair (a b : Nat) : swapLastTwo [a, b] = some [b, a] := by
  simpa using swapLastTwo_append [] a b

lemma dropLast_append_two (l : List Nat) (a b : Nat) :
    (l ++ [a, b]).dropLast = l ++ [a] := by
  rw [show l ++ [a, b] = (l ++ [a]) ++ [b] by simp, List.dropLast_concat]

lemma matmulShape_append (l p : List Nat) (a b c d : Nat) :
    matmulShape (l ++ [a, b]) (p ++ [c, d]) =
      if b = c then some (l ++ [a, d]) else none := by
  simp [matmulShape, List.reverse_append, dropLast_append_two]

lemma matmulShape_append_pair (l : List Nat) (a b c d : Nat) :
    matmulShape (l ++ [a, b]) [c, d] =
      if b = c then some (l ++ [a, d]) else none := by
  simpa using matmulShape_append l [] a b c d

lemma swapLastTwo_of_two_le (l : List Nat) (h : 2 ≤ l.length) :
    ∃ l', swapLastTwo l = some l' := by
  rcases hrev : l.reverse with _ | ⟨b, _ | ⟨a, r⟩⟩
  · have h0 : l.length = 0 := by simpa using congrArg List.length hrev
    omega
  · have h1 : l.length = 1 := by simpa using congrArg List.length hrev
    omega
  · exact ⟨(a :: b :: r).reverse, by unfold swapLastTwo; rw [hrev]⟩

set_option maxHeartbeats 1000000 in
/-- Full characterisation of one `add_backward_to_graph` call on a graph
in which the forward-input node `iX` and the output-gradient node `iG` are
existing, distinct nodes and both last-two-dimension swaps are in bounds:
the layer is unchanged, exactly three operations are appended (the
weight-gradient matmul of the in-place-transposed input against the output
gradient, the ADD reduction of the output gradient, and the input-gradient
matmul of the output gradient against the transposed weight node), the
node created from `weights_grad_` (uid `nextUid`) and the node created
from `bias_grad_` (uid `nextUid + 2`) keep their initial attributes and
are the output of no operation, all three operation outputs are virtual,
carry the layer's data type and the three backward name suffixes, and the
returned node is the input-gradient matmul output. -/
theorem add_backward_spec (l : DenseLayer) (g : Graph) (iG iX iF : Nat)
    (dX' dW' : List Nat)
    (hiX : iX < g.nextUid) (hiG : iG < g.nextUid) (hne : iX ≠ iG)
    (hsw : swapLastTwo (g.nodes iX).dim = some dX')
    (hsw2 : swapLastTwo l.weights_.dim = some dW') :
    resLayer (l.add_backward_to_graph g iG iX iF) = some l ∧
    resOut (l.add_backward_to_graph g iG iX iF) = some (g.nextUid + 5) ∧
    resOps (l.add_backward_to_graph g iG iX iF) =
      g.ops ++
        [⟨.matmul, l.weights_grad_.get_data_type, [iX, iG], g.nextUid + 1⟩,
         ⟨.reduction .ADD, l.bias_grad_.get_data_type, [iG], g.nextUid + 3⟩,
         ⟨.matmul, l.weights_grad_.get_data_type, [iG, g.nextUid + 4],
           g.nextUid + 5⟩] ∧
    resNode (l.add_backward_to_graph g iG iX iF) iX =
      ⟨(g.nodes iX).name, dX', l.data_type_, true⟩ ∧
    resNode (l.add_backward_to_graph g iG iX iF) g.nextUid =
      ⟨l.weights_grad_.name, l.weights_grad_.dim, l.weights_grad_.data_type,
        false⟩ ∧
    resNode (l.add_backward_to_graph g iG iX iF) (g.nextUid + 2) =
      ⟨l.bias_grad_.name, l.bias_grad_.dim, l.bias_grad_.data_type, false⟩ ∧
    (resNode (l.add_backward_to_graph g iG iX iF) (g.nextUid + 1)).name =
      l.name_ ++ "_weights_matmul_out_bwd" ∧
    (resNode (l.add_backward_to_graph g iG iX iF) (g.nextUid + 1)).is_virtual =
      true ∧
    (resNode (l.add_backward_to_graph g iG iX iF) (g.nextUid + 1)).data_type =
      l.data_type_ ∧
    (resNode (l.add_backward_to_graph g iG iX iF) (g.nextUid + 3)).name =
      l.name_ ++ "_bias_add_out_bwd" ∧
    (resNode (l.add_backward_to_graph g iG iX iF) (g.nextUid + 3)).is_virtual =
      true ∧
    (resNode (l.add_backward_to_graph g iG iX iF) (g.nextUid + 3)).data_type =
      l.data_type_ ∧
    resNode (l.add_backward_to_graph g iG iX iF) (g.nextUid + 4) =
      ⟨l.weights_.name, dW', l.data_type_, true⟩ ∧
    (resNode (l.add_backward_to_graph g iG iX iF) (g.nextUid + 5)).name =
      l.name_ ++ "_output_bwd" ∧
    (resNode (l.add_backward_to_graph g iG iX iF) (g.nextUid + 5)).is_virtual =
      true ∧
    (resNode (l.add_backward_to_graph g iG iX iF) (g.nextUid + 5)).data_type =
      l.data_type_ ∧
    (resNode (l.add_backward_to_graph g iG iX iF) (g.nextUid + 5)).dim =
      (matmulShape (g.nodes iG).dim dW').getD [] := by
  have a0 : ¬ iX = g.nextUid := by omega
  have a1 : ¬ iX = g.nextUid + 1 := by omega
  have a2 : ¬ iX = g.nextUid + 2 := by omega
  have a3 : ¬ iX = g.nextUid + 3 := by omega
  have a4 : ¬ iX = g.nextUid + 4 := by omega
  have a5 : ¬ iX = g.nextUid + 5 := by omega
  have b0 : ¬ iG = g.nextUid := by omega
  have b1 : ¬ iG = g.nextUid + 1 := by omega
  have b2 : ¬ iG = g.nextUid + 2 := by omega
  have b3 : ¬ iG = g.nextUid + 3 := by omega
  have b4 : ¬ iG = g.nextUid + 4 := by omega
  have b5 : ¬ iG = g.nextUid + 5 := by omega
  have c0 : ¬ g.nextUid = iX := by omega
  have c1 : ¬ g.nextUid + 1 = iX := by omega
  have c2 : ¬ g.nextUid + 2 = iX := by omega
  have c3 : ¬ g.nextUid + 3 = iX := by omega
  have c4 : ¬ g.nextUid + 4 = iX := by omega
  have c5 : ¬ g.nextUid + 5 = iX := by omega
  have e0 : ¬ iG = iX := fun h => hne h.symm
  have n2 : g.nextUid + 1 + 1 = g.nextUid + 2 := rfl
  have n3 : g.nextUid + 1 + 1 + 1 = g.nextUid + 3 := rfl
  have n4 : g.nextUid + 1 + 1 + 1 + 1 = g.nextUid + 4 := rfl
  have n5 : g.nextUid + 1 + 1 + 1 + 1 + 1 = g.nextUid + 5 := rfl
  refine ⟨?_, ?_, ?_, ?_, ?_, ?_, ?_, ?_, ?_, ?_, ?_, ?_, ?_, ?_, ?_, ?_, ?_⟩ <;>
    simp [DenseLayer.add_backward_to_graph,
      Tensor.create_graph_tensor_attributes, Graph.newNode, Graph.matmul,
      Graph.reduction, Graph.set_dim, Graph.set_name, Graph.set_is_virtual,
      Graph.set_data_type, Graph.modifyNode, Tensor.get_data_type, hsw, hsw2,
      hne, e0, a0, a1, a2, a3, a4, a5, b0, b1, b2, b3, b4, b5,
      c0, c1, c2, c3, c4, c5, n2, n3, n4, n5,
      resLayer, resOut, resOps, resNode]

/-- C3: the backward builder computes the weight gradient by reading the
forward-input node's current shape, swapping its last two dimensions in
place on that existing node (the emitted operation list contains exactly
the three matmul/reduction operations — no transpose operation), and
issuing the matmul of the transposed input against `output_grad_ref`,
whose output is virtual and named with the `_weights_matmul_out_bwd`
suffix. -/
theorem backward_weight_grad_inplace_transpose (l : DenseLayer) (g : Graph)
    (iG iX iF : Nat) (dX' dW' : List Nat)
    (hiX : iX < g.nextUid) (hiG : iG < g.nextUid) (hne : iX ≠ iG)
    (hsw : swapLastTwo (g.nodes iX).dim = some dX')
    (hsw2 : swapLastTwo l.weights_.dim = some dW') :
    resOps (l.add_backward_to_graph g iG iX iF) =
      g.ops ++
        [⟨.matmul, l.weights_grad_.get_data_type, [iX, iG], g.nextUid + 1⟩,
         ⟨.reduction .ADD, l.bias_grad_.get_data_type, [iG], g.nextUid + 3⟩,
         ⟨.matmul, l.weights_grad_.get_data_type, [iG, g.nextUid + 4],
           g.nextUid + 5⟩] ∧
    resNode (l.add_backward_to_graph g iG iX iF) iX =
      ⟨(g.nodes iX).name, dX', l.data_type_, true⟩ ∧
    (resNode (l.add_backward_to_graph g iG iX iF) (g.nextUid + 1)).name =
      l.name_ ++ "_weights_matmul_out_bwd" ∧
    (resNode (l.add_backward_to_graph g iG iX iF) (g.nextUid + 1)).is_virtual =
      true := by
  obtain ⟨-, -, h3, h4, -, -, h7, h8, -, -, -, -, -, -, -, -, -⟩ :=
    add_backward_spec l g iG iX iF dX' dW' hiX hiG hne hsw hsw2
  exact ⟨h3, h4, h7, h8⟩

theorem backward_weight_grad_inplace_transpose_witness :
    resOps (sampleLayer.add_backward_to_graph g0 1 0 1) =
      [⟨.matmul, .FLOAT, [0, 1], 3⟩, ⟨.reduction .ADD, .FLOAT, [1], 5⟩,
       ⟨.matmul, .FLOAT, [1, 6], 7⟩] ∧
    resNode (sampleLayer.add_backward_to_graph g0 1 0 1) 0 =
      ⟨"fwd_input", [4, 8], .FLOAT, true⟩ ∧
    (resNode (sampleLayer.add_backward_to_graph g0 1 0 1) 3).name =
      sampleLayer.name_ ++ "_weights_matmul_out_bwd" ∧
    (resNode (sampleLayer.add_backward_to_graph g0 1 0 1) 3).is_virtual =
      true :=
  backward_weight_grad_inplace_transpose sampleLayer g0 1 0 1 [4, 8] [3, 4]
    (by decide) (by decide) (by decide) (by decide) (by decide)

/-- C6: the backward builder emits the bias gradient as a reduction with
mode ADD consuming `output_grad_ref`, and the reduction's output is
virtual, carries the layer's data type and the `_bias_add_out_bwd` name
suffix. The reduced (batch/leading) axes are not fixed by this code; they
are resolved only by the external compile step. -/
theorem backward_bias_grad_reduction (l : DenseLayer) (g : Graph)
    (iG iX iF : Nat) (dX' dW' : List Nat)
    (hiX : iX < g.nextUid) (hiG : iG < g.nextUid) (hne : iX ≠ iG)
    (hsw : swapLastTwo (g.nodes iX).dim = some dX')
    (hsw2 : swapLastTwo l.weights_.dim = some dW') :
    (⟨.reduction .ADD, l.bias_grad_.get_data_type, [iG], g.nextUid + 3⟩ :
        OpNode) ∈ resOps (l.add_backward_to_graph g iG iX iF) ∧
    (resNode (l.add_backward_to_graph g iG iX iF) (g.nextUid + 3)).name =
      l.name_ ++ "_bias_add_out_bwd" ∧
    (resNode (l.add_backward_to_graph g iG iX iF) (g.nextUid + 3)).is_virtual =
      true ∧
    (resNode (l.add_backward_to_graph g iG iX iF) (g.nextUid + 3)).data_type =
      l.data_type_ := by
  obtain ⟨-, -, h3, -, -, -, -, -, -, h10, h11, h12, -, -, -, -, -⟩ :=
    add_backward_spec l g iG iX iF dX' dW' hiX hiG hne hsw hsw2
  refine ⟨?_, h10, h11, h12⟩
  rw [h3]
  simp

theorem backward_bias_grad_reduction_witness :
    (⟨.reduction .ADD, .FLOAT, [1], 5⟩ : OpNode) ∈
      resOps (sampleLayer.add_backward_to_graph g0 1 0 1) ∧
    (resNode (sampleLayer.add_backward_to_graph g0 1 0 1) 5).name =
      sampleLayer.name_ ++ "_bias_add_out_bwd" ∧
    (resNode (sampleLayer.add_backward_to_graph g0 1 0 1) 5).is_virtual =
      true ∧
    (resNode (sampleLayer.add_backward_to_graph g0 1 0 1) 5).data_type =
      .FLOAT :=
  backward_bias_grad_reduction sampleLayer g0 1 0 1 [4, 8] [3, 4]
    (by decide) (by decide) (by decide) (by decide) (by decide)

/-- C9: when the forward input's shape and the weight's shape both have
length at least two, the two last-two-dimension swaps only access
in-bounds positions, so the out-of-bounds branch of the embedded indexing
is unreachable and the backward call returns a result; the code itself
performs no length check. -/
theorem backward_swaps_in_bounds (l : DenseLayer) (g : Graph)
    (iG iX iF : Nat)
    (hiX : iX < g.nextUid) (hiG : iG < g.nextUid) (hne : iX ≠ iG)
    (hlen1 : 2 ≤ (g.nodes iX).dim.length)
    (hlen2 : 2 ≤ l.weights_.dim.length) :
    (l.add_backward_to_graph g iG iX iF).isSome = true := by
  obtain ⟨dX', h1⟩ := swapLastTwo_of_two_le _ hlen1
  obtain ⟨dW', h2⟩ := swapLastTwo_of_two_le _ hlen2
  have h := (add_backward_spec l g iG iX iF dX' dW' hiX hiG hne h1 h2).1
  cases hr : l.add_backward_to_graph g iG iX iF with
  | none => rw [hr] at h; simp [resLayer] at h
  | some v => rfl

theorem backward_swaps_in_bounds_witness :
    (sampleLayer.add_backward_to_graph g0 1 0 1).isSome = true :=
  backward_swaps_in_bounds sampleLayer g0 1 0 1 (by decide) (by decide)
    (by decide) (by decide) (by decide)

/-- C2: the backward builder computes the input gradient by registering a
fresh weight node, swapping its last two dimensions, and issuing the
matmul of `output_grad_ref` against that transposed weight node; the
returned node is virtual, named with the `_output_bwd` suffix, and for
every batch shape and all `m`, `k`, `n` its shape equals the forward
input's original (pre-transpose) shape `batch ++ [m, k]`. -/
theorem backward_input_grad_shape (l : DenseLayer) (batch : List Nat)
    (m k n : Nat) (hW : l.weights_.dim = [k, n]) :
    resOut (l.add_backward_to_graph
        (mkGraph2 (batch ++ [m, k]) (batch ++ [m, n])) 1 0 1) = some 7 ∧
    resOps (l.add_backward_to_graph
        (mkGraph2 (batch ++ [m, k]) (batch ++ [m, n])) 1 0 1) =
      [⟨.matmul, l.weights_grad_.get_data_type, [0, 1], 3⟩,
       ⟨.reduction .ADD, l.bias_grad_.get_data_type, [1], 5⟩,
       ⟨.matmul, l.weights_grad_.get_data_type, [1, 6], 7⟩] ∧
    resNode (l.add_backward_to_graph
        (mkGraph2 (batch ++ [m, k]) (batch ++ [m, n])) 1 0 1) 6 =
      ⟨l.weights_.name, [n, k], l.data_type_, true⟩ ∧
    (resNode (l.add_backward_to_graph
        (mkGraph2 (batch ++ [m, k]) (batch ++ [m, n])) 1 0 1) 7).name =
      l.name_ ++ "_output_bwd" ∧
    (resNode (l.add_backward_to_graph
        (mkGraph2 (batch ++ [m, k]) (batch ++ [m, n])) 1 0 1) 7).is_virtual =
      true ∧
    (resNode (l.add_backward_to_graph
        (mkGraph2 (batch ++ [m, k]) (batch ++ [m, n])) 1 0 1) 7).dim =
      batch ++ [m, k] := by
  have hn1 : (mkGraph2 (batch ++ [m, k]) (batch ++ [m, n])).nodes 1 =
      ⟨"output_grad", batch ++ [m, n], .FLOAT, false⟩ := rfl
  have hsw : swapLastTwo
      ((mkGraph2 (batch ++ [m, k]) (batch ++ [m, n])).nodes 0).dim =
      some (batch ++ [k, m]) := swapLastTwo_append batch m k
  have hsw2 : swapLastTwo l.weights_.dim = some [n, k] := by
    rw [hW]; exact swapLastTwo_pair k n
  obtain ⟨-, h2, h3, -, -, -, -, -, -, -, -, -, h13, h14, h15, -, h17⟩ :=
    add_backward_spec l (mkGraph2 (batch ++ [m, k]) (batch ++ [m, n])) 1 0 1
      (batch ++ [k, m]) [n, k] (by simp [mkGraph2]) (by simp [mkGraph2])
      (by decide) hsw hsw2
  refine ⟨h2, h3, h13, h14, h15, ?_⟩
  have h17x : (resNode (l.add_backward_to_graph
      (mkGraph2 (batch ++ [m, k]) (batch ++ [m, n])) 1 0 1) 7).dim =
      (matmulShape ((mkGraph2 (batch ++ [m, k]) (batch ++ [m, n])).nodes 1).dim
        [n, k]).getD [] := h17
  rw [h17x, hn1]
  simp [matmulShape_append_pair]

theorem backward_input_grad_shape_witness :
    resOut (sampleLayer.add_backward_to_graph g0 1 0 1) = some 7 ∧
    resOps (sampleLayer.add_backward_to_graph g0 1 0 1) =
      [⟨.matmul, .FLOAT, [0, 1], 3⟩,
       ⟨.reduction .ADD, .FLOAT, [1], 5⟩,
       ⟨.matmul, .FLOAT, [1, 6], 7⟩] ∧
    resNode (sampleLayer.add_backward_to_graph g0 1 0 1) 6 =
      ⟨"w", [3, 4], .FLOAT, true⟩ ∧
    (resNode (sampleLayer.add_backward_to_graph g0 1 0 1) 7).name =
      sampleLayer.name_ ++ "_output_bwd" ∧
    (resNode (sampleLayer.add_backward_to_graph g0 1 0 1) 7).is_virtual =
      true ∧
    (resNode (sampleLayer.add_backward_to_graph g0 1 0 1) 7).dim = [8, 4] :=
  backward_input_grad_shape sampleLayer [] 8 4 3 (by decide)

/-- C1: evaluated at the worked example, `add_backward_to_graph` does not
wire the emitted weight-gradient and bias-gradient operation outputs to
the layer's parameter set: the nodes registered from `weights_grad_`
(uid 2) and `bias_grad_` (uid 4) keep their initial attributes and are the
output of no emitted operation, the actual gradient outputs (uids 3 and 5)
are distinct virtual nodes, and the layer — hence everything
`get_gradients` returns — is left untouched by the call. -/
theorem backward_gradients_left_unwired :
    resLayer (sampleLayer.add_backward_to_graph g0 1 0 1) =
      some sampleLayer ∧
    resNode (sampleLayer.add_backward_to_graph g0 1 0 1) 2 =
      ⟨"wg", [4, 3], .FLOAT, false⟩ ∧
    resNode (sampleLayer.add_backward_to_graph g0 1 0 1) 4 =
      ⟨"bg", [1, 3], .FLOAT, false⟩ ∧
    ((resOps (sampleLayer.add_backward_to_graph g0 1 0 1)).all
      (fun op => op.output != 2 && op.output != 4)) = true ∧
    (resNode (sampleLayer.add_backward_to_graph g0 1 0 1) 3).is_virtual =
      true ∧
    (resNode (sampleLayer.add_backward_to_graph g0 1 0 1) 5).is_virtual =
      true := by
  decide

end UshioNN
